import Mathlib

/-!
Verification development for the alcounit/browser-controller repository.

The Go sources are shallowly embedded:
* `apis/browserconfig/v1/browser_config.go` — the config merge engine
  (`MergeWithTemplate`, `mergeWithSpec` and its helpers);
* `store/browserconfig_store.go` — the in-memory config store
  (`keyFor`, `onAddOrUpdate`, `onDelete`, `Get`);
* `controllers/browser` — the Browser reconciler (`Reconcile`,
  `handleDeletion`, `handleMissingPod`, `updateBrowserStatus`,
  `deleteBrowser`, `buildBrowserPod`, `retryUpdate`, `retryStatusUpdate`).

Go pointers (`*T`) become `Option T`; Go `nil` slices/maps become `none`.
Go maps (`map[string]V`) are embedded as insertion-ordered association
lists whose insert overwrites the value of an existing key in place; the
unspecified iteration order of a Go map is made explicit where it is
observable (the `range` over the temporary map inside `mergeEnvPtr`).
Durations are natural numbers (seconds for the reconciler timeouts,
milliseconds for retry backoff).
-/

namespace BrowserController

/-- corev1.EnvVar (the merge logic only reads `Name` and copies values). -/
structure EnvVar where
  name : String
  value : String
deriving DecidableEq

/-- corev1.ContainerPort. -/
structure ContainerPort where
  name : String
  containerPort : Int
  protocol : String
  hostPort : Int
deriving DecidableEq

/-- corev1.VolumeMount. -/
structure VolumeMount where
  name : String
  mountPath : String
deriving DecidableEq

/-- corev1.ResourceRequirements, kept as an opaque pair of request/limit
descriptions: the merge and pod-build logic only copy it whole. -/
structure ResourceRequirements where
  requests : String
  limits : String
deriving DecidableEq

/-- corev1.Volume (only copied whole by the embedded code). -/
structure Volume where
  name : String
deriving DecidableEq

/-- corev1.Toleration (only copied whole). -/
structure Toleration where
  key : String
deriving DecidableEq

/-- corev1.HostAlias (only copied whole). -/
structure HostAlias where
  ip : String
  hostnames : List String
deriving DecidableEq

/-- corev1.LocalObjectReference. -/
structure LocalObjectReference where
  name : String
deriving DecidableEq

/-- corev1.PodDNSConfig (only copied whole). -/
structure PodDNSConfig where
  nameservers : List String
deriving DecidableEq

/-- corev1.PodSecurityContext (only copied whole). -/
structure PodSecurityContext where
  runAsUser : Option Int
deriving DecidableEq

/-- corev1.Affinity (only copied whole). -/
structure Affinity where
  tag : String
deriving DecidableEq

/-- corev1.PullPolicy is a string; `""` is the Go zero value. -/
abbrev PullPolicy := String

/-- `Sidecar` from browser_config.go (used for sidecars and init
containers). -/
structure Sidecar where
  name : String
  image : String
  command : Option (List String)
  workingDir : Option String
  ports : Option (List ContainerPort)
  env : Option (List EnvVar)
  volumeMounts : Option (List VolumeMount)
  imagePullPolicy : PullPolicy
  resources : Option ResourceRequirements
deriving DecidableEq

/-- `Template` from browser_config.go. -/
structure Template where
  labels : Option (List (String × String))
  annotations : Option (List (String × String))
  env : Option (List EnvVar)
  resources : Option ResourceRequirements
  imagePullPolicy : PullPolicy
  volumes : Option (List Volume)
  volumeMounts : Option (List VolumeMount)
  nodeSelector : Option (List (String × String))
  affinity : Option Affinity
  tolerations : Option (List Toleration)
  hostAliases : Option (List HostAlias)
  initContainers : Option (List Sidecar)
  sidecars : Option (List Sidecar)
  privileged : Option Bool
  imagePullSecrets : Option (List LocalObjectReference)
  dnsConfig : Option PodDNSConfig
  securityContext : Option PodSecurityContext
  workingDir : Option String
deriving DecidableEq

/-- `BrowserVersionConfigSpec` from browser_config.go. -/
structure BrowserVersionConfigSpec where
  image : String
  labels : Option (List (String × String))
  annotations : Option (List (String × String))
  env : Option (List EnvVar)
  resources : Option ResourceRequirements
  imagePullPolicy : PullPolicy
  volumes : Option (List Volume)
  volumeMounts : Option (List VolumeMount)
  nodeSelector : Option (List (String × String))
  affinity : Option Affinity
  tolerations : Option (List Toleration)
  hostAliases : Option (List HostAlias)
  initContainers : Option (List Sidecar)
  sidecars : Option (List Sidecar)
  privileged : Option Bool
  imagePullSecrets : Option (List LocalObjectReference)
  dnsConfig : Option PodDNSConfig
  securityContext : Option PodSecurityContext
  workingDir : Option String
deriving DecidableEq

/-- `BrowserConfigSpec`: the optional template plus the two-level
browser-name → version → override mapping (Go maps as association
lists; a `none` entry is a Go nil `*BrowserVersionConfigSpec`). -/
structure BrowserConfigSpec where
  template : Option Template
  browsers : List (String × List (String × Option BrowserVersionConfigSpec))
deriving DecidableEq

/-- `BrowserConfig`: object metadata (namespace) plus the spec. -/
structure BrowserConfig where
  ns : String
  spec : BrowserConfigSpec
deriving DecidableEq

/-- Insert into an embedded Go `map[string]string`: overwrite in place if
the key exists, append otherwise. -/
def goMapInsert (m : List (String × String)) (k v : String) :
    List (String × String) :=
  if m.any fun p => p.1 = k then
    m.map fun p => if p.1 = k then (k, v) else p
  else
    m ++ [(k, v)]

/-- `mergeMapPtr` from browser_config.go: start from the template map,
then write every override pair (override wins on key collision). -/
def mergeMapPtr (template override : Option (List (String × String))) :
    Option (List (String × String)) :=
  match template, override with
  | none, none => none
  | _, _ =>
    let result := (template.getD []).foldl (fun m p => goMapInsert m p.1 p.2) []
    some ((override.getD []).foldl (fun m p => goMapInsert m p.1 p.2) result)

/-- Insert into the embedded `map[string]corev1.EnvVar` used by
`mergeEnvPtr` (key = env name, overwrite in place). -/
def envMapInsert (m : List (String × EnvVar)) (e : EnvVar) :
    List (String × EnvVar) :=
  if m.any fun p => p.1 = e.name then
    m.map fun p => if p.1 = e.name then (e.name, e) else p
  else
    m ++ [(e.name, e)]

/-- The contents of the temporary name-keyed map built by `mergeEnvPtr`:
all template entries inserted first, then all override entries. -/
def envMapOf (template override : Option (List EnvVar)) :
    List (String × EnvVar) :=
  (override.getD []).foldl envMapInsert
    ((template.getD []).foldl envMapInsert [])

/-- The key set of the `mergeEnvPtr` temporary map, in first-insertion
order. -/
def envKeys (template override : Option (List EnvVar)) : List String :=
  (envMapOf template override).map Prod.fst

/-- `mergeEnvPtr` from browser_config.go with the Go map iteration order
made explicit: `order` is the sequence in which `range` visits the keys
of the temporary map (Go leaves it unspecified). An admissible `order`
is any permutation of `envKeys template override`. -/
def mergeEnvPtrRun (order : List String)
    (template override : Option (List EnvVar)) : Option (List EnvVar) :=
  match template, override with
  | none, none => none
  | _, _ =>
    some (order.filterMap fun k =>
      ((envMapOf template override).lookup k).map fun e => e)

/-- `mergeEnvPtr` evaluated at one particular admissible iteration order
(first-insertion order); used wherever the surrounding code consumes
the merged environment. -/
def mergeEnvPtr (template override : Option (List EnvVar)) :
    Option (List EnvVar) :=
  mergeEnvPtrRun (envKeys template override) template override

/-- `firstNonNilResource` from browser_config.go. -/
def firstNonNilResource (template override : Option ResourceRequirements) :
    Option ResourceRequirements :=
  match override with
  | some o => some o
  | none => template

/-- `mergeVolumePtr` from browser_config.go: concatenation, template
first; empty result collapses to nil. -/
def mergeVolumePtr (template override : Option (List Volume)) :
    Option (List Volume) :=
  let result := template.getD [] ++ override.getD []
  if result.length = 0 then none else some result

/-- `mergeTolerationPtr` from browser_config.go. -/
def mergeTolerationPtr (template override : Option (List Toleration)) :
    Option (List Toleration) :=
  let result := template.getD [] ++ override.getD []
  if result.length = 0 then none else some result

/-- `mergeHostAliasPtr` from browser_config.go. -/
def mergeHostAliasPtr (template override : Option (List HostAlias)) :
    Option (List HostAlias) :=
  let result := template.getD [] ++ override.getD []
  if result.length = 0 then none else some result

/-- `mergeSidecarPtr` from browser_config.go: override entries first,
then template entries whose name does not occur in the override list. -/
def mergeSidecarPtr (template override : Option (List Sidecar)) :
    Option (List Sidecar) :=
  match template, override with
  | none, none => none
  | some t, none => some t
  | none, some o => some o
  | some t, some o =>
    some (o ++ t.filter fun s => ¬ o.any fun x => x.name = s.name)

/-- `mergeVolumeMountsPtr` from browser_config.go (deep-copies then
concatenates; a deep copy is the identity in the pure embedding). -/
def mergeVolumeMountsPtr (template override : Option (List VolumeMount)) :
    Option (List VolumeMount) :=
  let result := template.getD [] ++ override.getD []
  if result.length = 0 then none else some result

/-- `mergeLocalObjectRefPtr` from browser_config.go. -/
def mergeLocalObjectRefPtr
    (template override : Option (List LocalObjectReference)) :
    Option (List LocalObjectReference) :=
  let result := template.getD [] ++ override.getD []
  if result.length = 0 then none else some result

/-- `mergeContainerPortPtr` from browser_config.go. -/
def mergeContainerPortPtr (template override : Option (List ContainerPort)) :
    Option (List ContainerPort) :=
  let result := template.getD [] ++ override.getD []
  if result.length = 0 then none else some result

/-- `mergeVolumeMountPtr` from browser_config.go. -/
def mergeVolumeMountPtr (template override : Option (List VolumeMount)) :
    Option (List VolumeMount) :=
  let result := template.getD [] ++ override.getD []
  if result.length = 0 then none else some result

/-- `(*Sidecar).mergeWithTemplate` from browser_config.go. Note that
`workingDir` is assigned from the template unconditionally, while
`command` and `resources` are filled in only when unset. -/
def Sidecar.mergeWithTemplate (s t : Sidecar) : Sidecar :=
  { s with
    command := match s.command with
      | none => t.command
      | some c => some c
    workingDir := t.workingDir
    env := mergeEnvPtr t.env s.env
    ports := mergeContainerPortPtr t.ports s.ports
    volumeMounts := mergeVolumeMountPtr t.volumeMounts s.volumeMounts
    resources := match s.resources with
      | none => t.resources
      | some r => some r }

/-- `findTemplateSidecar` from browser_config.go. -/
def findTemplateSidecar (template : Option (List Sidecar)) (name : String) :
    Option Sidecar :=
  match template with
  | none => none
  | some l => l.find? fun s => s.name = name

/-- One pass of the post-merge fix-up loop in `mergeWithSpec`: an entry
whose name occurs in the original override list, when the template also
has an entry of that name, is merged with that template entry. -/
def fixupEntry (orig : List Sidecar) (tmpl : Option (List Sidecar))
    (s : Sidecar) : Sidecar :=
  match orig.find? fun o => s.name = o.name with
  | none => s
  | some _ =>
    match findTemplateSidecar tmpl s.name with
    | none => s
    | some t => s.mergeWithTemplate t

/-- The fix-up loop of `mergeWithSpec` over a merged sidecar list (runs
only when both the original override list and the template list were
non-nil). -/
def fixupList (origOpt tmplOpt : Option (List Sidecar))
    (merged : Option (List Sidecar)) : Option (List Sidecar) :=
  match origOpt, tmplOpt with
  | some orig, some _ => merged.map fun l => l.map (fixupEntry orig tmplOpt)
  | _, _ => merged

/-- `(*BrowserVersionConfigSpec).mergeWithSpec` from browser_config.go,
for a non-nil template (`MergeWithTemplate` only calls it then).
The init-container call passes its arguments to `mergeSidecarPtr`
swapped relative to the sidecar call, exactly as the source does. -/
def mergeWithSpec (b : BrowserVersionConfigSpec) (tm : Template) :
    BrowserVersionConfigSpec :=
  let b := { b with
    labels := mergeMapPtr tm.labels b.labels
    annotations := mergeMapPtr tm.annotations b.annotations
    env := mergeEnvPtr tm.env b.env
    resources := firstNonNilResource tm.resources b.resources
    imagePullPolicy :=
      if b.imagePullPolicy = "" then tm.imagePullPolicy else b.imagePullPolicy
    volumes := mergeVolumePtr tm.volumes b.volumes
    nodeSelector := mergeMapPtr tm.nodeSelector b.nodeSelector
    affinity := match b.affinity with
      | none => tm.affinity
      | some a => some a
    tolerations := mergeTolerationPtr tm.tolerations b.tolerations
    hostAliases := mergeHostAliasPtr tm.hostAliases b.hostAliases
    volumeMounts := mergeVolumeMountsPtr b.volumeMounts tm.volumeMounts }
  let originalSidecars := b.sidecars
  let b := { b with
    sidecars :=
      fixupList originalSidecars tm.sidecars
        (mergeSidecarPtr tm.sidecars b.sidecars) }
  let originalInitContainers := b.initContainers
  let b := { b with
    initContainers :=
      fixupList originalInitContainers tm.initContainers
        (mergeSidecarPtr b.initContainers tm.initContainers) }
  { b with
    privileged := match b.privileged with
      | none => tm.privileged
      | some p => some p
    imagePullSecrets := mergeLocalObjectRefPtr tm.imagePullSecrets b.imagePullSecrets
    dnsConfig := match b.dnsConfig with
      | none => tm.dnsConfig
      | some d => some d
    securityContext := match b.securityContext with
      | none => tm.securityContext
      | some s => some s
    workingDir := match b.workingDir with
      | none => tm.workingDir
      | some w => some w }

/-- `(*BrowserConfigSpec).MergeWithTemplate` from browser_config.go:
a nil template is a no-op; otherwise every non-nil version override is
merged in place. -/
def BrowserConfigSpec.MergeWithTemplate (spec : BrowserConfigSpec) :
    BrowserConfigSpec :=
  match spec.template with
  | none => spec
  | some tm =>
    { spec with
      browsers := spec.browsers.map fun bv =>
        (bv.1, bv.2.map fun ver =>
          (ver.1, ver.2.map fun b => mergeWithSpec b tm)) }

/-! ## Config store (store/browserconfig_store.go) -/

/-- ASCII lower-casing of one character (Go `strings.ToLower` acts
per rune; the catalog keys are ASCII). -/
def lowerChar (c : Char) : Char :=
  if c.isUpper then Char.ofNat (c.toNat + 32) else c

/-- ASCII lower-casing of a string, the embedding of
`strings.ToLower`. -/
def lowerString (s : String) : String := ⟨s.data.map lowerChar⟩

/-- `keyFor` from browserconfig_store.go. -/
def keyFor (ns browser version : String) : String :=
  ns ++ "/" ++ lowerString browser ++ ":" ++ lowerString version

/-- The store's internal map `map[string]*BrowserVersionConfigSpec`
(a stored `none` is a nil pointer value). -/
abbrev Store := List (String × Option BrowserVersionConfigSpec)

/-- Go map insert for the store map. -/
def storeInsert (s : Store) (k : String) (v : Option BrowserVersionConfigSpec) :
    Store :=
  if s.any fun p => p.1 = k then
    s.map fun p => if p.1 = k then (k, v) else p
  else
    s ++ [(k, v)]

/-- Go `delete` for the store map. -/
def storeErase (s : Store) (k : String) : Store :=
  s.filter fun p => p.1 ≠ k

/-- The `(key, cfg)` pairs written by `onAddOrUpdate`: every
browser-name/version pair of the object's mapping after
`MergeWithTemplate` ran on a deep copy. -/
def declaredEntries (bc : BrowserConfig) :
    List (String × Option BrowserVersionConfigSpec) :=
  (bc.spec.MergeWithTemplate).browsers.flatMap fun bv =>
    bv.2.map fun ver => (keyFor bc.ns bv.1 ver.1, ver.2)

/-- The store keys `onDelete` removes: every pair the deleted object's
(unmerged) mapping declared. -/
def declaredKeys (bc : BrowserConfig) : List String :=
  bc.spec.browsers.flatMap fun bv =>
    bv.2.map fun ver => keyFor bc.ns bv.1 ver.1

/-- An inner object carried by a `DeletedFinalStateUnknown` wrapper. -/
inductive InformerInner where
  | innerBC (bc : BrowserConfig)
  | innerOther (descr : String)
deriving DecidableEq

/-- An argument delivered to the store's event handlers: a
`*BrowserConfig`, a `DeletedFinalStateUnknown` tombstone (whose inner
object may be nil or of another type), or any other object. -/
inductive InformerObj where
  | bcObj (bc : BrowserConfig)
  | deletedFinalStateUnknown (inner : Option InformerInner)
  | otherObj (descr : String)
deriving DecidableEq

/-- The type switch both handlers start with: extract a `*BrowserConfig`
or bail out (`bc == nil` included). -/
def extractBrowserConfig : InformerObj → Option BrowserConfig
  | .bcObj bc => some bc
  | .deletedFinalStateUnknown (some (.innerBC bc)) => some bc
  | .deletedFinalStateUnknown _ => none
  | .otherObj _ => none

/-- `(*BrowserConfigStore).onAddOrUpdate` from browserconfig_store.go:
deep-copy, merge with the template, then insert every declared pair. -/
def onAddOrUpdate (obj : InformerObj) (s : Store) : Store :=
  match extractBrowserConfig obj with
  | none => s
  | some bc => (declaredEntries bc).foldl (fun st e => storeInsert st e.1 e.2) s

/-- `(*BrowserConfigStore).onDelete` from browserconfig_store.go. -/
def onDelete (obj : InformerObj) (s : Store) : Store :=
  match extractBrowserConfig obj with
  | none => s
  | some bc => (declaredKeys bc).foldl storeErase s

/-- `(*BrowserConfigStore).Get`: `none` = key absent; `some v` = key
present with stored pointer `v` (itself possibly nil). -/
def storeGet (s : Store) (ns browserName version : String) :
    Option (Option BrowserVersionConfigSpec) :=
  (s.find? fun p => p.1 = keyFor ns browserName version).map Prod.snd

/-! ## Browser reconciler data model (controllers/browser) -/

/-- Pod/Browser phase: `unset` is the Go empty string. -/
inductive Phase where
  | unset | pending | running | succeeded | failed | unknown
deriving DecidableEq

/-- corev1.ContainerStateWaiting. -/
structure ContainerStateWaiting where
  reason : String
  message : String
deriving DecidableEq

/-- corev1.ContainerStateTerminated. -/
structure ContainerStateTerminated where
  reason : String
  message : String
  exitCode : Int
  startedAt : Nat
  finishedAt : Nat
deriving DecidableEq

/-- corev1.ContainerStateRunning. -/
structure ContainerStateRunning where
  startedAt : Nat
deriving DecidableEq

/-- corev1.ContainerState. -/
structure ContainerState where
  waiting : Option ContainerStateWaiting
  terminated : Option ContainerStateTerminated
  running : Option ContainerStateRunning
deriving DecidableEq

/-- corev1.ContainerStatus (the fields the reconciler reads). -/
structure ContainerStatus where
  name : String
  state : ContainerState
  image : String
  restartCount : Nat
  ready : Bool
deriving DecidableEq

/-- browserv1.ContainerStatus (mirrored into the Browser status). -/
structure BrowserContainerStatus where
  name : String
  state : ContainerState
  image : String
  restartCount : Nat
  ports : List ContainerPort
deriving DecidableEq

/-- browserv1.BrowserSpec. -/
structure BrowserSpec where
  browserName : String
  browserVersion : String
deriving DecidableEq

/-- browserv1.BrowserStatus. -/
structure BrowserStatus where
  phase : Phase
  podIP : String
  message : String
  reason : String
  startTime : Option Nat
  containerStatuses : List BrowserContainerStatus
deriving DecidableEq

/-- `ContainerOption` of the selenosis options annotation. -/
structure ContainerOption where
  env : List (String × String)
deriving DecidableEq

/-- `SelenosisOptions`, the parsed options annotation document. -/
structure SelenosisOptions where
  labels : List (String × String)
  containers : List (String × ContainerOption)
deriving DecidableEq

/-- The observable outcomes of `parseSelenosisOptions` on a non-empty
`selenosis.io/options` annotation value: valid JSON yielding a document,
or malformed JSON yielding an unmarshal error. JSON decoding itself is
abstracted; a Browser carries this parse result directly. -/
inductive OptionsAnn where
  | valid (opts : SelenosisOptions)
  | malformed (err : String)
deriving DecidableEq

/-- browserv1.Browser. `optionsAnn` models the `selenosis.io/options`
annotation value (`none` = absent or empty string). -/
structure Browser where
  name : String
  ns : String
  labels : List (String × String)
  annotations : List (String × String)
  optionsAnn : Option OptionsAnn
  finalizers : List String
  deletionTimestamp : Option Nat
  spec : BrowserSpec
  status : BrowserStatus
deriving DecidableEq

/-- corev1.Container (the fields `buildBrowserPod` sets). Unset Go
zero values: empty string / empty list / `none`. -/
structure PodContainer where
  name : String
  image : String
  imagePullPolicy : PullPolicy
  command : List String
  workingDir : String
  ports : List ContainerPort
  env : List EnvVar
  volumeMounts : List VolumeMount
  resources : ResourceRequirements
  securityContextPrivileged : Option Bool
deriving DecidableEq

/-- corev1.PodSpec (the fields `buildBrowserPod` sets). -/
structure PodSpec where
  initContainers : List PodContainer
  containers : List PodContainer
  volumes : List Volume
  nodeSelector : List (String × String)
  affinity : Option Affinity
  tolerations : List Toleration
  hostAliases : List HostAlias
  imagePullSecrets : List LocalObjectReference
  dnsConfig : Option PodDNSConfig
  securityContext : Option PodSecurityContext
  hostname : String
  restartPolicy : String
deriving DecidableEq

/-- corev1.PodStatus (the fields the reconciler reads). -/
structure PodStatus where
  phase : Phase
  reason : String
  message : String
  podIP : String
  startTime : Option Nat
  containerStatuses : List ContainerStatus
deriving DecidableEq

/-- corev1.Pod. -/
structure Pod where
  name : String
  ns : String
  labels : List (String × String)
  annotations : List (String × String)
  ownedBy : Option String
  deletionTimestamp : Option Nat
  creationTimestamp : Option Nat
  spec : PodSpec
  status : PodStatus
deriving DecidableEq

/-- Constants from controllers/browser (durations in seconds). -/
def browserPodFinalizer : String := "browserpod.selenosis.io/finalizer"

def maxRetries : Nat := 5

def mediumRetry : Nat := 10

def periodicReconcile : Nat := 30

def quickCheck : Nat := 3

def podDeletionTimeout : Nat := 300

def podCreationTimeout : Nat := 300

def browserContainerName : String := "browser"

def sidecarContainerName : String := "seleniferous"

def selenosisOptionsAnnotationKey : String := "selenosis.io/options"

/-! ## Pod synthesis (`buildBrowserPod` and helpers) -/

/-- Go map insert for a `map[string]int` position index. -/
def goMapInsertNat (m : List (String × Nat)) (k : String) (v : Nat) :
    List (String × Nat) :=
  if m.any fun p => p.1 = k then
    m.map fun p => if p.1 = k then (k, v) else p
  else
    m ++ [(k, v)]

/-- `mergeEnvVars` from controllers/browser: replace an existing
variable at its recorded position, append a new one. The override Go
map is embedded as an association list visited in list order. -/
def mergeEnvVars (base : List EnvVar) (override : List (String × String)) :
    List EnvVar :=
  if override.length = 0 then base
  else
    let idx := base.enum.foldl (fun m p => goMapInsertNat m p.2.name p.1) []
    (override.foldl
      (fun (st : List EnvVar × List (String × Nat)) kv =>
        let ev : EnvVar := ⟨kv.1, kv.2⟩
        match st.2.lookup kv.1 with
        | some pos => (st.1.set pos ev, st.2)
        | none => (st.1 ++ [ev], goMapInsertNat st.2 kv.1 st.1.length))
      (base, idx)).1

/-- `applySelenosisOptions` from controllers/browser: named-container
environment overrides, then option labels (which always win). -/
def applySelenosisOptions (pod : Pod) (opts : Option SelenosisOptions) : Pod :=
  match opts with
  | none => pod
  | some o =>
    let pod :=
      if o.containers.length > 0 then
        { pod with spec := { pod.spec with
            containers := pod.spec.containers.map fun c =>
              match o.containers.lookup c.name with
              | some copt =>
                if copt.env.length = 0 then c
                else { c with env := mergeEnvVars c.env copt.env }
              | none => c } }
      else pod
    { pod with labels := o.labels.foldl (fun m p => goMapInsert m p.1 p.2) pod.labels }

/-- The Go zero value of corev1.ResourceRequirements. -/
def zeroResources : ResourceRequirements := ⟨"", ""⟩

/-- Init-container synthesis inside `buildBrowserPod`. The resolved
spec's top-level working directory, when set, is assigned; otherwise
the container's own working directory is used when set. -/
def buildInitContainer (cfg : BrowserVersionConfigSpec) (ic : Sidecar) :
    PodContainer :=
  { name := ic.name
    image := ic.image
    imagePullPolicy := ic.imagePullPolicy
    volumeMounts := ic.volumeMounts.getD []
    env := ic.env.getD []
    resources := ic.resources.getD zeroResources
    command := ic.command.getD []
    ports := ic.ports.getD []
    workingDir := match cfg.workingDir with
      | some w => w
      | none => ic.workingDir.getD ""
    securityContextPrivileged := none }

/-- Sidecar-container synthesis inside `buildBrowserPod`: only the
sidecar's own working directory is ever assigned. -/
def buildSidecarContainer (s : Sidecar) : PodContainer :=
  { name := s.name
    image := s.image
    imagePullPolicy := s.imagePullPolicy
    env := s.env.getD []
    resources := s.resources.getD zeroResources
    command := s.command.getD []
    ports := s.ports.getD []
    volumeMounts := s.volumeMounts.getD []
    workingDir := s.workingDir.getD ""
    securityContextPrivileged := none }

/-- `buildBrowserPod` from controllers/browser. -/
def buildBrowserPod (b : Browser) (cfg : BrowserVersionConfigSpec)
    (opts : Option SelenosisOptions) : Pod :=
  let browserContainer : PodContainer :=
    { name := browserContainerName
      image := cfg.image
      imagePullPolicy := ""
      command := []
      workingDir := cfg.workingDir.getD ""
      ports := []
      env := cfg.env.getD []
      volumeMounts := cfg.volumeMounts.getD []
      resources := cfg.resources.getD zeroResources
      securityContextPrivileged := none }
  let sidecarContainers :=
    browserContainer :: (cfg.sidecars.getD []).map buildSidecarContainer
  let sidecarContainers :=
    if cfg.privileged.getD false then
      match sidecarContainers with
      | c :: rest => { c with securityContextPrivileged := some true } :: rest
      | [] => []
    else sidecarContainers
  let lbls :=
    (cfg.labels.getD []).foldl (fun m p => goMapInsert m p.1 p.2)
      (b.labels.foldl (fun m p => goMapInsert m p.1 p.2) [])
  let anns :=
    (cfg.annotations.getD []).foldl (fun m p => goMapInsert m p.1 p.2)
      ((b.annotations.filter fun p => p.1 ≠ selenosisOptionsAnnotationKey).foldl
        (fun m p => goMapInsert m p.1 p.2) [])
  let pod : Pod :=
    { name := b.name
      ns := b.ns
      labels := lbls
      annotations := anns
      ownedBy := some b.name
      deletionTimestamp := none
      creationTimestamp := none
      spec :=
        { initContainers := (cfg.initContainers.getD []).map (buildInitContainer cfg)
          containers := sidecarContainers
          volumes := cfg.volumes.getD []
          nodeSelector := cfg.nodeSelector.getD []
          affinity := cfg.affinity
          tolerations := cfg.tolerations.getD []
          hostAliases := cfg.hostAliases.getD []
          imagePullSecrets := cfg.imagePullSecrets.getD []
          dnsConfig := cfg.dnsConfig
          securityContext := cfg.securityContext
          hostname := b.name
          restartPolicy := "Never" }
      status :=
        { phase := .unset, reason := "", message := "", podIP := ""
          startTime := none, containerStatuses := [] } }
  applySelenosisOptions pod opts

/-! ## Reconciliation state machine

One `World` holds the single Browser under reconciliation, its
same-named Pod (if any), the config store contents and the current
time (seconds). Platform I/O is modelled as always succeeding; the
optimistic-concurrency retry loop with injected failures is modelled
separately below. -/

/-- Reconcile outcome: `ctrl.Result.RequeueAfter` plus the returned
error (as a message). -/
structure ReconcileResult where
  requeueAfter : Option Nat
  err : Option String
deriving DecidableEq

/-- The world a reconciliation invocation acts on. -/
structure World where
  browser : Option Browser
  pod : Option Pod
  store : Store
  now : Nat
deriving DecidableEq

/-- `controllerutil.ContainsFinalizer` for the browser pod finalizer. -/
def containsFinalizer (b : Browser) : Bool :=
  b.finalizers.contains browserPodFinalizer

/-- `controllerutil.RemoveFinalizer`. -/
def removeFinalizer (b : Browser) : Browser :=
  { b with finalizers := b.finalizers.filter fun f => f ≠ browserPodFinalizer }

/-- `controllerutil.AddFinalizer`. -/
def addFinalizer (b : Browser) : Browser :=
  if containsFinalizer b then b
  else { b with finalizers := b.finalizers ++ [browserPodFinalizer] }

/-- A successful fetch-mutate-patch of the Browser object
(`retryUpdate` / `retryStatusUpdate` with all platform calls
succeeding). -/
def patchBrowser (w : World) (f : Browser → Browser) : World :=
  { w with browser := w.browser.map f }

/-- Fetch the Pod with the Browser's name and namespace. -/
def getPod (w : World) (b : Browser) : Option Pod :=
  match w.pod with
  | some p => if p.name = b.name ∧ p.ns = b.ns then some p else none
  | none => none

/-- Platform effect of a zero-grace-period delete (`deletePod`): the
Pod is removed. -/
def forceDeletePod (w : World) : World := { w with pod := none }

/-- Platform effect of a graceful delete: the Pod acquires a deletion
timestamp and lingers. -/
def markPodDeleting (w : World) : World :=
  { w with pod := w.pod.map fun p =>
      if p.deletionTimestamp.isNone then { p with deletionTimestamp := some w.now }
      else p }

/-- Platform effect of deleting the Browser object: gone at once when
no finalizer holds it, otherwise marked with a deletion timestamp. -/
def deleteBrowserObj (w : World) : World :=
  { w with browser := w.browser.bind fun b =>
      if b.finalizers.isEmpty then none
      else some { b with deletionTimestamp := some w.now } }

/-- `createPod`: the built Pod is created; the platform stamps the
creation time and starts it Pending. -/
def createPod (w : World) (p : Pod) : World :=
  { w with pod := some { p with
      creationTimestamp := some w.now
      status := { p.status with phase := .pending } } }

/-- `(*BrowserReconciler).deleteBrowser`: remove the finalizer, then
delete the Browser object itself. -/
def deleteBrowser (w : World) (b0 : Browser) : World × ReconcileResult :=
  let w := if containsFinalizer b0 then patchBrowser w removeFinalizer else w
  (deleteBrowserObj w, ⟨none, none⟩)

/-- `(*BrowserReconciler).handleDeletion`. All conditions read the
fetched copies (`b0`, the fetched Pod), exactly as the Go code does. -/
def handleDeletion (w : World) (b0 : Browser) : World × ReconcileResult :=
  if ¬ containsFinalizer b0 then (w, ⟨none, none⟩)
  else
    match getPod w b0 with
    | some pod =>
      let w :=
        if pod.deletionTimestamp.isNone then
          if pod.status.phase = .failed then forceDeletePod w else markPodDeleting w
        else w
      match pod.deletionTimestamp with
      | some dts =>
        if podDeletionTimeout < w.now - dts then
          let w := forceDeletePod w
          let w := if containsFinalizer b0 then patchBrowser w removeFinalizer else w
          (w, ⟨none, none⟩)
        else (w, ⟨some quickCheck, none⟩)
      | none => (w, ⟨some quickCheck, none⟩)
    | none =>
      let w := if containsFinalizer b0 then patchBrowser w removeFinalizer else w
      (w, ⟨none, none⟩)

/-- Status mutation marking the Browser Failed for a missing config
entry (the `updateFunc` passed to `retryStatusUpdate`). -/
def setFailedMissingConfig (b : Browser) : Browser :=
  { b with status := { b.status with
      phase := .failed
      reason := "BrowserPodSpec"
      message := "Browser configuration not found" } }

/-- Status mutation for a malformed options annotation. -/
def setFailedInvalidOptions (e : String) (b : Browser) : Browser :=
  { b with status := { b.status with
      phase := .failed
      reason := "InvalidSelenosisOptions"
      message := e } }

/-- `(*BrowserReconciler).handleMissingPod`: resolve the config from the
store; a missing or nil entry marks the Browser Failed (terminal, no
error returned); malformed options likewise; otherwise build and create
the Pod. -/
def handleMissingPod (w : World) (b0 : Browser) : World × ReconcileResult :=
  match storeGet w.store b0.ns b0.spec.browserName b0.spec.browserVersion with
  | none | some none =>
    let w :=
      if b0.status.phase ≠ .failed then patchBrowser w setFailedMissingConfig
      else w
    (w, ⟨none, none⟩)
  | some (some cfg) =>
    match b0.optionsAnn with
    | some (.malformed e) =>
      (patchBrowser w (setFailedInvalidOptions e), ⟨none, none⟩)
    | none => (createPod w (buildBrowserPod b0 cfg none), ⟨some quickCheck, none⟩)
    | some (.valid o) =>
      (createPod w (buildBrowserPod b0 cfg (some o)), ⟨some quickCheck, none⟩)

/-- `getContainerPorts` from controllers/browser. -/
def getContainerPorts (containerName : String) (pod : Pod) :
    List ContainerPort :=
  match pod.spec.containers.find? fun c =>
      c.name = containerName ∧ c.ports.length > 0 with
  | some c => c.ports
  | none => []

/-- `containerStateEqual` from controllers/browser. -/
def containerStateEqual (a b : ContainerState) : Bool :=
  if a.running.isSome ≠ b.running.isSome then false
  else if a.terminated.isSome ≠ b.terminated.isSome then false
  else if a.waiting.isSome ≠ b.waiting.isSome then false
  else
    match a.running, b.running with
    | some x, some y => x.startedAt = y.startedAt
    | _, _ =>
      match a.terminated, b.terminated with
      | some x, some y =>
        x.exitCode = y.exitCode ∧ x.reason = y.reason ∧ x.message = y.message ∧
          x.startedAt = y.startedAt ∧ x.finishedAt = y.finishedAt
      | _, _ =>
        match a.waiting, b.waiting with
        | some x, some y => x.reason = y.reason ∧ x.message = y.message
        | _, _ => true

/-- A critical container (primary browser or the designated sidecar)
reporting a terminated state. -/
def isCriticalTerminated (cs : ContainerStatus) : Bool :=
  (cs.name = browserContainerName ∨ cs.name = sidecarContainerName) ∧
    cs.state.terminated.isSome

/-- The mirrored per-container status entry built by
`updateBrowserStatus`. -/
def newContainerStatusOf (pod : Pod) (cs : ContainerStatus) :
    BrowserContainerStatus :=
  { name := cs.name
    state := cs.state
    image := cs.image
    restartCount := cs.restartCount
    ports := getContainerPorts cs.name pod }

/-- The changed-containers check of `updateBrowserStatus`. -/
def containersChangedCheck (newSts oldSts : List BrowserContainerStatus) :
    Bool :=
  if newSts.length ≠ oldSts.length then true
  else
    (List.range newSts.length).any fun i =>
      match newSts.get? i, oldSts.get? i with
      | some n, some o =>
        n.restartCount ≠ o.restartCount ∨ ¬ containerStateEqual n.state o.state
      | _, _ => true

/-- Status mutation for a terminated critical container: phase Failed
with the Pod's reported reason and message. -/
def setFailedCritical (pod : Pod) (b : Browser) : Browser :=
  { b with status := { b.status with
      phase := .failed
      reason := pod.status.reason
      message := pod.status.message } }

/-- Status mutation mirroring the observed Pod fields
(the `updateFunc` of the steady-state status sync). -/
def mirrorPodStatus (pod : Pod) (browserStatusChanged containersStatusChanged : Bool)
    (newSts : List BrowserContainerStatus) (b : Browser) : Browser :=
  let st := b.status
  let st :=
    if browserStatusChanged then
      { st with podIP := pod.status.podIP, startTime := pod.status.startTime }
    else st
  let st := { st with phase := pod.status.phase }
  let st :=
    if containersStatusChanged then { st with containerStatuses := newSts }
    else st
  { b with status := st }

/-- `(*BrowserReconciler).updateBrowserStatus`. -/
def updateBrowserStatus (w : World) (b0 : Browser) (pod : Pod) :
    World × ReconcileResult :=
  match pod.status.containerStatuses.find? isCriticalTerminated with
  | some _ =>
    let w :=
      if b0.status.phase ≠ .failed then patchBrowser w (setFailedCritical pod)
      else w
    deleteBrowser w b0
  | none =>
    let browserStatusChanged : Bool :=
      b0.status.phase ≠ pod.status.phase ∨ b0.status.podIP ≠ pod.status.podIP ∨
        (pod.status.startTime.isSome ∧
          (b0.status.startTime.isNone ∨ b0.status.startTime ≠ pod.status.startTime))
    let newSts := pod.status.containerStatuses.map (newContainerStatusOf pod)
    let containersStatusChanged : Bool :=
      if pod.status.containerStatuses.length > 0 then
        containersChangedCheck newSts b0.status.containerStatuses
      else false
    let w :=
      if browserStatusChanged ∨ containersStatusChanged then
        patchBrowser w
          (mirrorPodStatus pod browserStatusChanged containersStatusChanged newSts)
      else w
    (w, ⟨some periodicReconcile, none⟩)

/-- Status mutation for a container that terminated while the Pod was
Pending. -/
def setFailedTerminated (containerName : String) (b : Browser) : Browser :=
  { b with status := { b.status with
      phase := .failed
      message := "pod container " ++ containerName ++ " terminated" } }

/-- Status mutation for the creation-timeout failure. -/
def setFailedTimeout (b : Browser) : Browser :=
  { b with status := { b.status with
      phase := .failed
      message := "pod creation timeout exceeded after 5m0s" } }

/-- Status mutation for a container waiting with an unrecognized
reason. -/
def setFailedWaiting (containerName reason message : String) (b : Browser) :
    Browser :=
  { b with status := { b.status with
      phase := .failed
      message := "pod container " ++ containerName ++ " failed: " ++ reason ++
        " - " ++ message } }

/-- The per-container loop run while the Pod is Pending: terminated →
Failed; waiting past the creation timeout → Failed (checked before the
reason); waiting with an unrecognized reason → force-delete and Failed;
otherwise keep scanning. `none` means the loop fell through. -/
def processPendingStatuses (w : World) (pod : Pod) :
    List ContainerStatus → Option (World × ReconcileResult)
  | [] => none
  | cs :: rest =>
    if cs.state.terminated.isSome then
      some (patchBrowser w (setFailedTerminated cs.name), ⟨none, none⟩)
    else
      match cs.state.waiting with
      | some wst =>
        if pod.creationTimestamp.isSome ∧
            podCreationTimeout < w.now - pod.creationTimestamp.getD 0 then
          some (patchBrowser w setFailedTimeout, ⟨none, none⟩)
        else if wst.reason ≠ "ContainerCreating" ∧ wst.reason ≠ "PodInitializing" then
          some (patchBrowser (forceDeletePod w)
            (setFailedWaiting cs.name wst.reason wst.message), ⟨none, none⟩)
        else processPendingStatuses w pod rest
      | none => processPendingStatuses w pod rest

/-- The identity-label mutation applied when the browser identity label
is missing or wrong. -/
def setIdentityLabels (b : Browser) : Browser :=
  let l1 := goMapInsert b.labels "selenosis.io/browser" b.name
  let l2 := goMapInsert l1 "selenosis.io/browser.name" b.spec.browserName
  let l3 := goMapInsert l2 "selenosis.io/browser.version" b.spec.browserVersion
  { b with labels := l3 }

/-- The initial-phase mutation: set status phase to Pending. -/
def setPendingPhase (b : Browser) : Browser :=
  { b with status := { b.status with phase := .pending } }

/-- Status mutation for a Pod whose phase is Failed. -/
def setFailedPod (pod : Pod) (b : Browser) : Browser :=
  { b with status := { b.status with
      phase := .failed
      message := "pod has failed with reason: " ++ pod.status.reason ++
        " - " ++ pod.status.message } }

/-- `(*BrowserReconciler).Reconcile`. Every condition reads the Browser
copy fetched at entry (`b0`); patches act on the stored object. -/
def reconcile (w : World) : World × ReconcileResult :=
  match w.browser with
  | none => (w, ⟨none, none⟩)
  | some b0 =>
    if b0.deletionTimestamp.isSome then handleDeletion w b0
    else if b0.status.phase = .failed then
      let w := if containsFinalizer b0 then patchBrowser w removeFinalizer else w
      (w, ⟨none, none⟩)
    else
      let w := if ¬ containsFinalizer b0 then patchBrowser w addFinalizer else w
      let w :=
        if (b0.labels.lookup "selenosis.io/browser").getD "" ≠ b0.name then
          patchBrowser w setIdentityLabels
        else w
      let w :=
        if b0.status.phase = .unset then patchBrowser w setPendingPhase
        else w
      match getPod w b0 with
      | none =>
        if b0.status.phase = .failed then (w, ⟨none, none⟩)
        else handleMissingPod w b0
      | some pod =>
        if pod.deletionTimestamp.isSome ∧ b0.deletionTimestamp.isNone then
          deleteBrowser w b0
        else
          let w :=
            if pod.status.phase = .failed then
              patchBrowser (forceDeletePod w) (setFailedPod pod)
            else w
          if pod.status.phase = .pending then
            match processPendingStatuses w pod pod.status.containerStatuses with
            | some res => res
            | none => updateBrowserStatus w b0 pod
          else updateBrowserStatus w b0 pod

/-! ## Optimistic-concurrency retry (`retryUpdate` / `retryStatusUpdate`)

The abstract client: `outcome i` is the result of the i-th patch
attempt (fetches are modelled as succeeding; a fetch failure returns
immediately in the Go code and is outside the retried-conflict story).
The loop sleeps `100 * 2^i` milliseconds after the i-th conflict,
including the last one, exactly as the source does. -/

/-- Result of one patch attempt against the API server. -/
inductive PatchOutcome where
  | ok
  | conflict
  | otherErr
deriving DecidableEq

/-- The observable run of a retry loop: the final object, the returned
error, how many patch attempts were made and which backoff sleeps (ms)
were taken. -/
structure RetryRun (α : Type) where
  obj : α
  err : Option String
  attempts : Nat
  sleeps : List Nat
deriving DecidableEq

/-- The `for i := 0; i < maxRetries; i++` loop shared by `retryUpdate`
and `retryStatusUpdate`, over the list of remaining attempt indices. -/
def retryLoop {α : Type} (outcome : Nat → PatchOutcome) (upd : α → α)
    (exhaustMsg : String) : List Nat → α → RetryRun α
  | [], obj => ⟨obj, some exhaustMsg, 0, []⟩
  | i :: rest, obj =>
    match outcome i with
    | .ok => ⟨upd obj, none, 1, []⟩
    | .otherErr => ⟨obj, some "patch error", 1, []⟩
    | .conflict =>
      let r := retryLoop outcome upd exhaustMsg rest obj
      ⟨r.obj, r.err, r.attempts + 1, 100 * 2 ^ i :: r.sleeps⟩

/-- `(*BrowserReconciler).retryUpdate`. -/
def retryUpdate {α : Type} (outcome : Nat → PatchOutcome) (upd : α → α)
    (obj : α) : RetryRun α :=
  retryLoop outcome upd
    "failed to patch Browser after 5 attempts: version conflict"
    (List.range maxRetries) obj

/-- `(*BrowserReconciler).retryStatusUpdate`. -/
def retryStatusUpdate {α : Type} (outcome : Nat → PatchOutcome) (upd : α → α)
    (obj : α) : RetryRun α :=
  retryLoop outcome upd
    "failed to patch Browser status after 5 attempts: version conflict"
    (List.range maxRetries) obj

/-! ## Relations and concrete fixtures used by the theorems below -/

/-- Permutation equivalence on optional env lists (`none` = Go nil). -/
def optionEnvPerm : Option (List EnvVar) → Option (List EnvVar) → Prop
  | none, none => True
  | some a, some b => a.Perm b
  | some _, none => False
  | none, some _ => False

instance (x y : Option (List EnvVar)) : Decidable (optionEnvPerm x y) :=
  match x, y with
  | none, none => isTrue trivial
  | some a, some b => inferInstanceAs (Decidable (a.Perm b))
  | some _, none => isFalse fun h => h
  | none, some _ => isFalse fun h => h

/-- A sidecar value with every optional field unset. -/
def blankSidecar : Sidecar :=
  { name := "", image := "", command := none, workingDir := none, ports := none
    env := none, volumeMounts := none, imagePullPolicy := "", resources := none }

/-- A template with every field unset. -/
def blankTemplate : Template :=
  { labels := none, annotations := none, env := none, resources := none
    imagePullPolicy := "", volumes := none, volumeMounts := none
    nodeSelector := none, affinity := none, tolerations := none
    hostAliases := none, initContainers := none, sidecars := none
    privileged := none, imagePullSecrets := none, dnsConfig := none
    securityContext := none, workingDir := none }

/-- A version override with only the required image left to fill in. -/
def blankOverride : BrowserVersionConfigSpec :=
  { image := "", labels := none, annotations := none, env := none
    resources := none, imagePullPolicy := "", volumes := none
    volumeMounts := none, nodeSelector := none, affinity := none
    tolerations := none, hostAliases := none, initContainers := none
    sidecars := none, privileged := none, imagePullSecrets := none
    dnsConfig := none, securityContext := none, workingDir := none }

/-- An empty Browser status. -/
def blankBrowserStatus : BrowserStatus :=
  { phase := .unset, podIP := "", message := "", reason := ""
    startTime := none, containerStatuses := [] }

/-- A Browser with no labels, annotations, finalizers or status. -/
def blankBrowser : Browser :=
  { name := "", ns := "", labels := [], annotations := [], optionsAnn := none
    finalizers := [], deletionTimestamp := none
    spec := { browserName := "", browserVersion := "" }
    status := blankBrowserStatus }

/-- An empty Pod spec. -/
def blankPodSpec : PodSpec :=
  { initContainers := [], containers := [], volumes := [], nodeSelector := []
    affinity := none, tolerations := [], hostAliases := []
    imagePullSecrets := [], dnsConfig := none, securityContext := none
    hostname := "", restartPolicy := "" }

/-- An empty Pod status. -/
def blankPodStatus : PodStatus :=
  { phase := .unset, reason := "", message := "", podIP := ""
    startTime := none, containerStatuses := [] }

/-- A Pod with no content. -/
def blankPod : Pod :=
  { name := "", ns := "", labels := [], annotations := [], ownedBy := none
    deletionTimestamp := none, creationTimestamp := none
    spec := blankPodSpec, status := blankPodStatus }

/-- C1 fixture: template init container. -/
def c1TemplateInit : Sidecar := { blankSidecar with name := "init", image := "tmpl-img" }

/-- C1 fixture: override init container of the same name. -/
def c1OverrideInit : Sidecar := { blankSidecar with name := "init", image := "ovr-img" }

/-- C1 fixture: template carrying only the init container. -/
def c1Template : Template := { blankTemplate with initContainers := some [c1TemplateInit] }

/-- C1 fixture: version override carrying only the init container. -/
def c1Override : BrowserVersionConfigSpec :=
  { blankOverride with image := "chrome:1", initContainers := some [c1OverrideInit] }

/-- C2 fixture: template sidecar with a working directory. -/
def c2TemplateSidecar : Sidecar :=
  { blankSidecar with name := "sc", image := "t-img", workingDir := some "/tmpl" }

/-- C2 fixture: override sidecar with its own explicit working
directory. -/
def c2OverrideSidecar : Sidecar :=
  { blankSidecar with name := "sc", image := "o-img", workingDir := some "/own" }

/-- C2 fixture: template carrying only the sidecar. -/
def c2Template : Template := { blankTemplate with sidecars := some [c2TemplateSidecar] }

/-- C2 fixture: version override carrying only the sidecar. -/
def c2Override : BrowserVersionConfigSpec :=
  { blankOverride with image := "chrome:2", sidecars := some [c2OverrideSidecar] }

/-- C3 fixture: the resolved config the old catalog revision declared
for chrome 1.0. -/
def c3CfgOld : BrowserVersionConfigSpec := { blankOverride with image := "chrome:1" }

/-- C3 fixture: the config the new catalog revision declares for
chrome 2.0. -/
def c3CfgNew : BrowserVersionConfigSpec := { blankOverride with image := "chrome:2" }

/-- C3 fixture: store state left by the old revision. -/
def c3Store : Store := [(keyFor "ns" "chrome" "1.0", some c3CfgOld)]

/-- C3 fixture: the latest catalog revision, which no longer declares
chrome 1.0. -/
def c3Config : BrowserConfig :=
  { ns := "ns"
    spec := { template := none, browsers := [("chrome", [("2.0", some c3CfgNew)])] } }

/-- C4 fixture: a Failed Browser still carrying its finalizer. -/
def c4Browser : Browser :=
  { blankBrowser with
      name := "b1", ns := "ns"
      finalizers := [browserPodFinalizer]
      spec := { browserName := "chrome", browserVersion := "1.0" }
      status := { blankBrowserStatus with phase := .failed } }

/-- C4 fixture: the owned Pod, alive and running. -/
def c4Pod : Pod :=
  { blankPod with
      name := "b1", ns := "ns", creationTimestamp := some 0
      status := { blankPodStatus with phase := .running } }

/-- C4 fixture: world with the Failed Browser and its live Pod. -/
def c4World : World := { browser := some c4Browser, pod := some c4Pod, store := [], now := 100 }

/-- C4 witness fixture: the same Browser marked for deletion. -/
def c4DeletingBrowser : Browser := { c4Browser with
  deletionTimestamp := some 50
  status := { blankBrowserStatus with phase := .running } }

/-- C4 witness fixture: world in the deletion handshake with the Pod
still alive and not yet being deleted. -/
def c4DeletingWorld : World :=
  { browser := some c4DeletingBrowser, pod := some c4Pod, store := [], now := 100 }

/-- C5 fixture: template env list. -/
def c5TemplateEnv : Option (List EnvVar) := some [⟨"TZ", "UTC"⟩]

/-- C5 fixture: override env list. -/
def c5OverrideEnv : Option (List EnvVar) := some [⟨"DEBUG", "true"⟩]

/-- C6 fixture: an init container with its own working directory. -/
def c6Init : Sidecar := { blankSidecar with name := "prep", image := "prep:1", workingDir := some "/own" }

/-- C6 fixture: a sidecar without a working directory of its own. -/
def c6Sidecar : Sidecar := { blankSidecar with name := "side", image := "side:1" }

/-- C6 fixture: resolved spec with a top-level working directory. -/
def c6Cfg : BrowserVersionConfigSpec :=
  { blankOverride with
      image := "chrome:3", workingDir := some "/top"
      initContainers := some [c6Init], sidecars := some [c6Sidecar] }

/-- C6 fixture: the requesting Browser. -/
def c6Browser : Browser := { blankBrowser with name := "b6", ns := "ns" }

/-- C7 witness fixture: conflicts twice, then succeeds. -/
def c7ConflictTwice : Nat → PatchOutcome := fun i => if i < 2 then .conflict else .ok

/-- C7 witness fixture: every attempt conflicts. -/
def c7AlwaysConflict : Nat → PatchOutcome := fun _ => .conflict

/-- C7 witness fixture: one conflict, then a non-conflict error. -/
def c7OtherAfterOne : Nat → PatchOutcome := fun i => if i = 0 then .conflict else .otherErr

/-- C8 fixture: a fresh Browser requesting an unknown browser/version. -/
def c8Browser : Browser :=
  { blankBrowser with
      name := "b8", ns := "ns"
      spec := { browserName := "opera", browserVersion := "9.0" } }

/-- C8 fixture: world with an empty config store and no Pod. -/
def c8World : World := { browser := some c8Browser, pod := none, store := [], now := 0 }

/-- C9 fixture: a Pending Browser. -/
def c9Browser : Browser :=
  { blankBrowser with
      name := "b9", ns := "ns"
      finalizers := [browserPodFinalizer]
      labels := [("selenosis.io/browser", "b9")]
      spec := { browserName := "chrome", browserVersion := "120" }
      status := { blankBrowserStatus with phase := .pending } }

/-- C9 fixture: the browser container stuck in ContainerCreating. -/
def c9ContainerStatus : ContainerStatus :=
  { name := "browser"
    state := { waiting := some { reason := "ContainerCreating", message := "" }
               terminated := none, running := none }
    image := "chrome:4", restartCount := 0, ready := false }

/-- C9 fixture: its Pod, Pending with a container stuck in
ContainerCreating since time 0. -/
def c9Pod : Pod :=
  { blankPod with
      name := "b9", ns := "ns", creationTimestamp := some 0
      status := { blankPodStatus with
        phase := .pending
        containerStatuses := [c9ContainerStatus] } }

/-- C9 fixture: world observed just past the 5-minute creation
timeout. -/
def c9World : World := { browser := some c9Browser, pod := some c9Pod, store := [], now := 301 }

/-! ## Helper lemmas -/

theorem mergeWithTemplate_name (s t : Sidecar) :
    (s.mergeWithTemplate t).name = s.name := rfl

theorem mergeWithTemplate_image (s t : Sidecar) :
    (s.mergeWithTemplate t).image = s.image := rfl

theorem mergeWithTemplate_workingDir (s t : Sidecar) :
    (s.mergeWithTemplate t).workingDir = t.workingDir := rfl

theorem fixupEntry_name (orig : List Sidecar) (tmpl : Option (List Sidecar))
    (s : Sidecar) : (fixupEntry orig tmpl s).name = s.name := by
  unfold fixupEntry
  split
  · rfl
  · split
    · rfl
    · exact mergeWithTemplate_name _ _

theorem filter_map_name (f : Sidecar → Sidecar)
    (hf : ∀ s, (f s).name = s.name) (n : String) (l : List Sidecar) :
    (l.map f).filter (fun x => x.name = n) =
      (l.filter fun x => x.name = n).map f := by
  induction l with
  | nil => rfl
  | cons a l ih =>
    by_cases h : a.name = n
    · simp [List.filter_cons, hf, h, ih]
    · simp [List.filter_cons, hf, h, ih]

theorem find?_of_filter_singleton {α : Type} (p : α → Bool) (l : List α)
    (t : α) (h : l.filter p = [t]) : l.find? p = some t := by
  induction l with
  | nil => simp at h
  | cons a l ih =>
    by_cases ha : p a
    · have : a = t := by
        have := h
        rw [List.filter_cons_of_pos ha] at this
        exact (List.cons.injEq _ _ _ _ ▸ this).1
      rw [List.find?_cons_of_pos _ ha, this]
    · rw [List.filter_cons_of_neg (by simpa using ha)] at h
      rw [List.find?_cons_of_neg _ (by simpa using ha)]
      exact ih h

theorem mem_of_filter_singleton {α : Type} (p : α → Bool) (l : List α)
    (t : α) (h : l.filter p = [t]) : t ∈ l ∧ p t = true := by
  have ht : t ∈ l.filter p := by rw [h]; simp
  exact ⟨List.mem_of_mem_filter ht, List.of_mem_filter ht⟩

theorem patchBrowser_pod (w : World) (f : Browser → Browser) :
    (patchBrowser w f).pod = w.pod := rfl

theorem patchBrowser_store (w : World) (f : Browser → Browser) :
    (patchBrowser w f).store = w.store := rfl

theorem patchBrowser_now (w : World) (f : Browser → Browser) :
    (patchBrowser w f).now = w.now := rfl

theorem getPod_patchBrowser (w : World) (f : Browser → Browser) (b : Browser) :
    getPod (patchBrowser w f) b = getPod w b := rfl

theorem addFinalizer_deletionTimestamp (b : Browser) :
    (addFinalizer b).deletionTimestamp = b.deletionTimestamp := by
  unfold addFinalizer; split <;> rfl

theorem addFinalizer_status (b : Browser) :
    (addFinalizer b).status = b.status := by
  unfold addFinalizer; split <;> rfl

theorem setIdentityLabels_deletionTimestamp (b : Browser) :
    (setIdentityLabels b).deletionTimestamp = b.deletionTimestamp := rfl

theorem setIdentityLabels_status (b : Browser) :
    (setIdentityLabels b).status = b.status := rfl

theorem setPendingPhase_deletionTimestamp (b : Browser) :
    (setPendingPhase b).deletionTimestamp = b.deletionTimestamp := rfl

theorem setFailedMissingConfig_deletionTimestamp (b : Browser) :
    (setFailedMissingConfig b).deletionTimestamp = b.deletionTimestamp := rfl

theorem setFailedMissingConfig_phase (b : Browser) :
    (setFailedMissingConfig b).status.phase = .failed := rfl

theorem setFailedMissingConfig_reason (b : Browser) :
    (setFailedMissingConfig b).status.reason = "BrowserPodSpec" := rfl

theorem setFailedMissingConfig_message (b : Browser) :
    (setFailedMissingConfig b).status.message = "Browser configuration not found" := rfl

theorem removeFinalizer_status (b : Browser) :
    (removeFinalizer b).status = b.status := rfl

theorem setFailedTimeout_phase (b : Browser) :
    (setFailedTimeout b).status.phase = .failed := rfl

theorem setFailedTimeout_message (b : Browser) :
    (setFailedTimeout b).status.message =
      "pod creation timeout exceeded after 5m0s" := rfl

theorem find?_map_overwrite (s : Store) (k : String)
    (v : Option BrowserVersionConfigSpec)
    (h : (s.any fun p => p.1 = k) = true) :
    ((s.map fun p => if p.1 = k then (k, v) else p).find? fun p => p.1 = k)
      = some (k, v) := by
  induction s with
  | nil => simp at h
  | cons a s ih =>
    by_cases ha : a.1 = k
    · simp [List.find?_cons, ha]
    · have h2 : (s.any fun p => p.1 = k) = true := by
        simpa [List.any_cons, ha] using h
      simpa [List.find?_cons, ha] using ih h2

theorem find?_map_overwrite_other (s : Store) (k k2 : String)
    (v : Option BrowserVersionConfigSpec) (hk : k2 ≠ k) :
    ((s.map fun p => if p.1 = k then (k, v) else p).find? fun p => p.1 = k2)
      = s.find? fun p => p.1 = k2 := by
  induction s with
  | nil => rfl
  | cons a s ih =>
    have hk2 : ¬ k = k2 := fun hcon => hk hcon.symm
    by_cases ha : a.1 = k
    · have hak : ¬ a.1 = k2 := by rw [ha]; exact hk2
      simp [List.find?_cons, ha, hak, hk2, hk, ih]
    · by_cases ha2 : a.1 = k2
      · simp [List.find?_cons, ha, ha2, hk]
      · simp [List.find?_cons, ha, ha2, hk, ih]

theorem storeInsert_find?_self (s : Store) (k : String)
    (v : Option BrowserVersionConfigSpec) :
    ((storeInsert s k v).find? fun p => p.1 = k) = some (k, v) := by
  unfold storeInsert
  by_cases h : (s.any fun p => p.1 = k) = true
  · rw [if_pos h]
    exact find?_map_overwrite s k v h
  · rw [if_neg h, List.find?_append]
    have hnone : (s.find? fun p => p.1 = k) = none := by
      rw [List.find?_eq_none]
      intro x hx hpx
      exact h (List.any_eq_true.mpr ⟨x, hx, hpx⟩)
    rw [hnone]
    simp [List.find?]

theorem storeInsert_find?_other (s : Store) (k k2 : String)
    (v : Option BrowserVersionConfigSpec) (hk : k2 ≠ k) :
    ((storeInsert s k v).find? fun p => p.1 = k2)
      = s.find? fun p => p.1 = k2 := by
  unfold storeInsert
  by_cases h : (s.any fun p => p.1 = k) = true
  · rw [if_pos h]
    exact find?_map_overwrite_other s k k2 v hk
  · rw [if_neg h, List.find?_append]
    have hk2 : ¬ k = k2 := fun hcon => hk hcon.symm
    have hone : (([(k, v)] : Store).find? fun p => p.1 = k2) = none := by
      simp [List.find?, hk2]
    rw [hone]
    cases s.find? fun p => p.1 = k2 <;> rfl

theorem foldl_storeInsert_notMem
    (es : List (String × Option BrowserVersionConfigSpec)) (s : Store)
    (k : String) (h : k ∉ es.map Prod.fst) :
    ((es.foldl (fun st e => storeInsert st e.1 e.2) s).find? fun p => p.1 = k)
      = s.find? fun p => p.1 = k := by
  induction es generalizing s with
  | nil => rfl
  | cons e es ih =>
    simp only [List.map_cons, List.mem_cons, not_or] at h
    simp only [List.foldl_cons]
    rw [ih _ h.2, storeInsert_find?_other s e.1 k e.2 h.1]

theorem foldl_storeInsert_mem
    (es : List (String × Option BrowserVersionConfigSpec)) (s : Store)
    (k : String) (v : Option BrowserVersionConfigSpec)
    (hnd : (es.map Prod.fst).Nodup) (hm : (k, v) ∈ es) :
    ((es.foldl (fun st e => storeInsert st e.1 e.2) s).find? fun p => p.1 = k)
      = some (k, v) := by
  induction es generalizing s with
  | nil => cases hm
  | cons e es ih =>
    simp only [List.map_cons, List.nodup_cons] at hnd
    simp only [List.foldl_cons]
    rcases List.mem_cons.mp hm with he | hm2
    · subst he
      rw [foldl_storeInsert_notMem es _ k hnd.1]
      exact storeInsert_find?_self s k v
    · exact ih (storeInsert s e.1 e.2) hnd.2 hm2

/-! ## Claim theorems -/

/-- C1: evaluating the merge at a template and an override that both
declare an init container named "init" (template image "tmpl-img",
override image "ovr-img"), the merged list has exactly one entry of that
name but it is the template's entry: its image is "tmpl-img", not the
override's "ovr-img". The init-container call passes `mergeSidecarPtr`
its template/override arguments swapped relative to the sidecar call,
so the template wins the name collision. -/
theorem c1_initContainer_template_wins :
    (mergeWithSpec c1Override c1Template).initContainers =
      some [{ blankSidecar with name := "init", image := "tmpl-img" }] ∧
    c1OverrideInit.image = "ovr-img" ∧ ("tmpl-img" : String) ≠ "ovr-img" :=
  ⟨rfl, rfl, by decide⟩

/-- C2 counterexample: a template sidecar and an override sidecar share
the name "sc"; the override sets its working directory to "/own", the
template to "/tmpl". The merged sidecar's working directory is the
template's "/tmpl": the override's explicitly-set working directory is
not preserved (`mergeWithTemplate` assigns it unconditionally). -/
theorem c2_workingDir_not_preserved :
    ((mergeWithSpec c2Override c2Template).sidecars.getD []).map
        (fun s => s.workingDir) = [some "/tmpl"] ∧
    c2OverrideSidecar.workingDir = some "/own" ∧
    (some "/tmpl" : Option String) ≠ some "/own" :=
  ⟨rfl, rfl, by decide⟩

/-- C3 counterexample: the store holds chrome 1.0 from an earlier
revision; the latest revision declares only chrome 2.0. After
`onAddOrUpdate` of the latest revision, `Get` still returns the stale
chrome 1.0 entry — the handler only inserts/replaces, it never purges
keys the latest revision no longer declares. -/
theorem c3_stale_key_counterexample :
    storeGet (onAddOrUpdate (.bcObj c3Config) c3Store) "ns" "chrome" "1.0" =
      some (some c3CfgOld) ∧
    some (some c3CfgOld) ≠ (none : Option (Option BrowserVersionConfigSpec)) :=
  ⟨by decide, by simp⟩

/-- C4 counterexample: reconciling a Browser in phase Failed removes its
finalizer and returns without ever looking at the Pod; the owned Pod
(same name and namespace) still exists afterwards while the finalizer is
absent. -/
theorem c4_finalizer_removed_while_pod_exists :
    ((reconcile c4World).1.pod).isSome = true ∧
    (reconcile c4World).1.browser = some { c4Browser with finalizers := [] } ∧
    containsFinalizer { c4Browser with finalizers := [] } = false :=
  ⟨rfl, rfl, by decide⟩

/-- C5 counterexample: both iteration orders are admissible for the
temporary map `mergeEnvPtr` builds (they permute its key set), yet the
two runs produce differently ordered env lists: the output order is the
unspecified Go map iteration order, not a function of the inputs. -/
theorem c5_env_order_nondeterminism :
    (["TZ", "DEBUG"].Perm (envKeys c5TemplateEnv c5OverrideEnv)) ∧
    (["DEBUG", "TZ"].Perm (envKeys c5TemplateEnv c5OverrideEnv)) ∧
    mergeEnvPtrRun ["TZ", "DEBUG"] c5TemplateEnv c5OverrideEnv ≠
      mergeEnvPtrRun ["DEBUG", "TZ"] c5TemplateEnv c5OverrideEnv := by
  decide

/-- C6 counterexample: with a resolved top-level working directory
"/top", an init container whose own working directory is "/own" is
built with "/top" (its own value is ignored, not kept), and a sidecar
with no working directory of its own is built with "" (it does not
inherit "/top"). -/
theorem c6_workingDir_counterexample :
    (buildBrowserPod c6Browser c6Cfg none).spec.initContainers.map
        (fun c => c.workingDir) = ["/top"] ∧
    c6Init.workingDir = some "/own" ∧
    (buildBrowserPod c6Browser c6Cfg none).spec.containers.map
        (fun c => c.workingDir) = ["/top", ""] ∧
    c6Sidecar.workingDir = none ∧
    ("/top" : String) ≠ "/own" ∧ ("" : String) ≠ "/top" :=
  ⟨rfl, rfl, rfl, rfl, by decide, by decide⟩

/-- C2 (amended): when the template and the override both declare a
sidecar named `n` (each exactly once), the merged sidecar list has
exactly one entry of that name, namely the override entry merged with
the template entry; that entry keeps the override's image, inherits
command and resources only when the override left them unset, merges
env by name and concatenates template ports/volume mounts before the
override's — but its working directory is always the template entry's
(even when the override set its own). -/
theorem c2_sidecar_merge_amended (b : BrowserVersionConfigSpec)
    (tm : Template) (tl ol : List Sidecar) (t s : Sidecar) (n : String)
    (htm : tm.sidecars = some tl) (hb : b.sidecars = some ol)
    (ht : tl.filter (fun x => x.name = n) = [t])
    (hs : ol.filter (fun x => x.name = n) = [s]) :
    ((mergeWithSpec b tm).sidecars.getD []).filter (fun x => x.name = n)
        = [s.mergeWithTemplate t] ∧
    (s.mergeWithTemplate t).image = s.image ∧
    (s.mergeWithTemplate t).workingDir = t.workingDir ∧
    (s.mergeWithTemplate t).command
        = (match s.command with | none => t.command | some c => some c) ∧
    (s.mergeWithTemplate t).resources
        = (match s.resources with | none => t.resources | some r => some r) ∧
    (s.mergeWithTemplate t).env = mergeEnvPtr t.env s.env ∧
    (s.mergeWithTemplate t).ports = mergeContainerPortPtr t.ports s.ports := by
  have hsp := mem_of_filter_singleton _ _ _ hs
  have hsname : s.name = n := by simpa using hsp.2
  refine ⟨?_, rfl, rfl, rfl, rfl, rfl, rfl⟩
  have hsc : (mergeWithSpec b tm).sidecars =
      fixupList b.sidecars tm.sidecars
        (mergeSidecarPtr tm.sidecars b.sidecars) := rfl
  rw [hsc, htm, hb]
  have hmerge : mergeSidecarPtr (some tl) (some ol) =
      some (ol ++ tl.filter fun sc => ¬ ol.any fun x => x.name = sc.name) := rfl
  rw [hmerge]
  have hfix1 : fixupList (some ol) (some tl)
      (some (ol ++ tl.filter fun sc => ¬ ol.any fun x => x.name = sc.name)) =
      some ((ol ++ tl.filter fun sc => ¬ ol.any fun x => x.name = sc.name).map
        (fixupEntry ol (some tl))) := rfl
  rw [hfix1]
  simp only [Option.getD_some]
  rw [filter_map_name (fixupEntry ol (some tl)) (fixupEntry_name ol (some tl)) n]
  rw [List.filter_append, hs]
  have htl0 : ((tl.filter fun sc => ¬ ol.any fun x => x.name = sc.name).filter
      fun x => x.name = n) = [] := by
    rw [List.filter_comm, ht]
    rw [List.filter_eq_nil_iff]
    intro a ha
    have han : a = t := List.mem_singleton.mp ha
    have hat : t.name = n := by
      have := mem_of_filter_singleton _ _ _ ht
      simpa using this.2
    simp only [han]
    intro hcon
    have : (ol.any fun x => x.name = t.name) = true :=
      List.any_eq_true.mpr ⟨s, hsp.1, by simp [hsname, hat]⟩
    simp [this] at hcon
  rw [htl0, List.append_nil]
  have hfix : fixupEntry ol (some tl) s = s.mergeWithTemplate t := by
    have hfindSome : (ol.find? fun o => s.name = o.name).isSome := by
      rw [List.find?_isSome]
      exact ⟨s, hsp.1, by simp⟩
    cases hfo : ol.find? fun o => s.name = o.name with
    | none => rw [hfo] at hfindSome; simp at hfindSome
    | some o0 =>
      have htpl : findTemplateSidecar (some tl) s.name = some t := by
        show tl.find? (fun x => x.name = s.name) = some t
        rw [hsname]
        exact find?_of_filter_singleton _ tl t ht
      simp only [fixupEntry, hfo, htpl]
  rw [List.map_cons, List.map_nil, hfix]

/-- C2 witness: the concrete template/override pair from the
counterexample instantiates the amended statement. -/
theorem c2_sidecar_merge_amended_witness :
    ((mergeWithSpec c2Override c2Template).sidecars.getD []).filter
        (fun x => x.name = "sc")
        = [c2OverrideSidecar.mergeWithTemplate c2TemplateSidecar] ∧
    (c2OverrideSidecar.mergeWithTemplate c2TemplateSidecar).image
        = c2OverrideSidecar.image ∧
    (c2OverrideSidecar.mergeWithTemplate c2TemplateSidecar).workingDir
        = c2TemplateSidecar.workingDir ∧
    (c2OverrideSidecar.mergeWithTemplate c2TemplateSidecar).command
        = (match c2OverrideSidecar.command with
           | none => c2TemplateSidecar.command
           | some c => some c) ∧
    (c2OverrideSidecar.mergeWithTemplate c2TemplateSidecar).resources
        = (match c2OverrideSidecar.resources with
           | none => c2TemplateSidecar.resources
           | some r => some r) ∧
    (c2OverrideSidecar.mergeWithTemplate c2TemplateSidecar).env
        = mergeEnvPtr c2TemplateSidecar.env c2OverrideSidecar.env ∧
    (c2OverrideSidecar.mergeWithTemplate c2TemplateSidecar).ports
        = mergeContainerPortPtr c2TemplateSidecar.ports c2OverrideSidecar.ports :=
  c2_sidecar_merge_amended c2Override c2Template [c2TemplateSidecar]
    [c2OverrideSidecar] c2TemplateSidecar c2OverrideSidecar "sc"
    rfl rfl (by decide) (by decide)

/-- C3 (amended): after `onAddOrUpdate` of a catalog object whose
declared store keys are distinct, `Get` returns, for every
(browserName, version) pair the latest revision declares, exactly the
entry merged from that revision; keys the revision does not declare are
left exactly as they were (stale pairs persist until the object is
deleted — they are not purged). -/
theorem c3_store_reflects_latest_revision (s : Store) (bc : BrowserConfig)
    (hnd : ((declaredEntries bc).map Prod.fst).Nodup) :
    (∀ ns n ver v, (keyFor ns n ver, v) ∈ declaredEntries bc →
        storeGet (onAddOrUpdate (.bcObj bc) s) ns n ver = some v) ∧
    (∀ ns n ver, keyFor ns n ver ∉ (declaredEntries bc).map Prod.fst →
        storeGet (onAddOrUpdate (.bcObj bc) s) ns n ver = storeGet s ns n ver) := by
  constructor
  · intro ns n ver v hm
    show ((onAddOrUpdate (.bcObj bc) s).find? fun p =>
      p.1 = keyFor ns n ver).map Prod.snd = some v
    have : onAddOrUpdate (.bcObj bc) s =
        (declaredEntries bc).foldl (fun st e => storeInsert st e.1 e.2) s := rfl
    rw [this, foldl_storeInsert_mem _ s _ v hnd hm]
    rfl
  · intro ns n ver hnm
    show ((onAddOrUpdate (.bcObj bc) s).find? fun p =>
        p.1 = keyFor ns n ver).map Prod.snd =
      (s.find? fun p => p.1 = keyFor ns n ver).map Prod.snd
    have : onAddOrUpdate (.bcObj bc) s =
        (declaredEntries bc).foldl (fun st e => storeInsert st e.1 e.2) s := rfl
    rw [this, foldl_storeInsert_notMem _ s _ hnm]

/-- C3 witness: at the concrete revision, the declared chrome 2.0 pair
is served merged, and an unrelated key is untouched. -/
theorem c3_store_reflects_latest_revision_witness :
    storeGet (onAddOrUpdate (.bcObj c3Config) c3Store) "ns" "chrome" "2.0" =
      some (some c3CfgNew) ∧
    storeGet (onAddOrUpdate (.bcObj c3Config) c3Store) "ns" "firefox" "9" =
      storeGet c3Store "ns" "firefox" "9" :=
  ⟨(c3_store_reflects_latest_revision c3Store c3Config (by decide)).1
      "ns" "chrome" "2.0" (some c3CfgNew) (by decide),
    (c3_store_reflects_latest_revision c3Store c3Config (by decide)).2
      "ns" "firefox" "9" (by decide)⟩

/-- C5 (amended): `MergeWithTemplate` is deterministic up to the order
of the merged environment-variable list: two runs of the env merge
whose (unspecified) Go map iteration orders are both admissible agree
on the entry multiset — the outputs are permutations of each other —
and agree exactly on nil-ness. The order itself is not determined by
the inputs (see the counterexample). -/
theorem c5_env_merge_deterministic_up_to_perm (t o : Option (List EnvVar))
    (o1 o2 : List String) (h1 : o1.Perm (envKeys t o))
    (h2 : o2.Perm (envKeys t o)) :
    optionEnvPerm (mergeEnvPtrRun o1 t o) (mergeEnvPtrRun o2 t o) := by
  have h12 : o1.Perm o2 := h1.trans h2.symm
  cases t with
  | none =>
    cases o with
    | none => trivial
    | some lo =>
      simpa [mergeEnvPtrRun, optionEnvPerm] using h12.filterMap _
  | some lt =>
    cases o with
    | none => simpa [mergeEnvPtrRun, optionEnvPerm] using h12.filterMap _
    | some lo => simpa [mergeEnvPtrRun, optionEnvPerm] using h12.filterMap _

/-- C5 witness: the two concrete admissible orders of the counterexample
yield outputs that are permutations of each other. -/
theorem c5_env_merge_deterministic_up_to_perm_witness :
    (["DEBUG", "TZ"].Perm (envKeys c5TemplateEnv c5OverrideEnv)) ∧
    optionEnvPerm
      (mergeEnvPtrRun ["DEBUG", "TZ"] c5TemplateEnv c5OverrideEnv)
      (mergeEnvPtrRun ["TZ", "DEBUG"] c5TemplateEnv c5OverrideEnv) :=
  ⟨by decide,
    c5_env_merge_deterministic_up_to_perm c5TemplateEnv c5OverrideEnv
      ["DEBUG", "TZ"] ["TZ", "DEBUG"] (by decide) (by decide)⟩

/-- C4 (amended): the finalizer-while-pod-exists invariant holds only on
the deletion handshake: when a Browser marked for deletion still has its
finalizer and its Pod exists without a deletion timestamp and is not
Failed, reconciliation deletes the Pod gracefully, keeps the finalizer,
leaves the Pod present (now marked deleting) and requeues shortly. The
Failed-phase path and the critical-container path instead remove the
finalizer while the Pod may still exist, leaving Pod cleanup to
owner-reference garbage collection (see the counterexample). -/
theorem c4_deletion_handshake_retains_finalizer (w : World) (b0 : Browser)
    (pod : Pod) (d : Nat)
    (hb : w.browser = some b0)
    (hdel : b0.deletionTimestamp = some d)
    (hfin : containsFinalizer b0 = true)
    (hpod : w.pod = some pod)
    (hname : pod.name = b0.name) (hns : pod.ns = b0.ns)
    (hpdel : pod.deletionTimestamp = none)
    (hpph : pod.status.phase ≠ .failed) :
    (reconcile w).1.browser = some b0 ∧
    ((reconcile w).1.pod).isSome = true ∧
    (reconcile w).2 = ⟨some quickCheck, none⟩ := by
  have hgp : getPod w b0 = some pod := by simp [getPod, hpod, hname, hns]
  have hred : reconcile w = (markPodDeleting w, ⟨some quickCheck, none⟩) := by
    simp [reconcile, hb, hdel, handleDeletion, hfin, hgp, hpdel, hpph]
  rw [hred]
  refine ⟨?_, ?_, rfl⟩
  · show (markPodDeleting w).browser = some b0
    simpa [markPodDeleting] using hb
  · simp [markPodDeleting, hpod]

/-- C4 witness: the concrete deleting Browser with a live Pod keeps its
finalizer and waits. -/
theorem c4_deletion_handshake_retains_finalizer_witness :
    (reconcile c4DeletingWorld).1.browser = some c4DeletingBrowser ∧
    ((reconcile c4DeletingWorld).1.pod).isSome = true ∧
    (reconcile c4DeletingWorld).2 = ⟨some quickCheck, none⟩ :=
  c4_deletion_handshake_retains_finalizer c4DeletingWorld c4DeletingBrowser
    c4Pod 50 rfl rfl (by decide) rfl rfl rfl rfl (by decide)

/-- C7: the retry helpers retry only on conflicts with backoff
`100·2^i` ms: (1) a patch that conflicts twice then succeeds makes the
helper succeed on the third attempt with the intended mutation applied
and backoffs 100, 200 ms; (2) five straight conflicts exhaust the
helper after exactly five attempts and five sleeps, surfacing an error;
(3) a non-conflict error at any attempt `k` is returned immediately,
with no further attempts and no additional sleep. Both `retryUpdate`
and `retryStatusUpdate` behave alike. -/
theorem c7_retry_behavior {α : Type} (outcome : Nat → PatchOutcome)
    (upd : α → α) (obj : α) :
    (outcome 0 = .conflict → outcome 1 = .conflict → outcome 2 = .ok →
      retryUpdate outcome upd obj = ⟨upd obj, none, 3, [100, 200]⟩ ∧
      retryStatusUpdate outcome upd obj = ⟨upd obj, none, 3, [100, 200]⟩) ∧
    ((∀ i, i < maxRetries → outcome i = .conflict) →
      retryUpdate outcome upd obj =
        ⟨obj, some "failed to patch Browser after 5 attempts: version conflict",
          5, [100, 200, 400, 800, 1600]⟩ ∧
      retryStatusUpdate outcome upd obj =
        ⟨obj,
          some "failed to patch Browser status after 5 attempts: version conflict",
          5, [100, 200, 400, 800, 1600]⟩) ∧
    (∀ k, k < maxRetries → (∀ j, j < k → outcome j = .conflict) →
      outcome k = .otherErr →
      retryUpdate outcome upd obj =
        ⟨obj, some "patch error", k + 1, (List.range k).map fun i => 100 * 2 ^ i⟩ ∧
      retryStatusUpdate outcome upd obj =
        ⟨obj, some "patch error", k + 1, (List.range k).map fun i => 100 * 2 ^ i⟩) := by
  have hr : List.range maxRetries = [0, 1, 2, 3, 4] := rfl
  refine ⟨?_, ?_, ?_⟩
  · intro h0 h1 h2
    constructor <;> norm_num [retryUpdate, retryStatusUpdate, hr, retryLoop, h0, h1, h2]
  · intro h
    have h0 := h 0 (by norm_num [maxRetries])
    have h1 := h 1 (by norm_num [maxRetries])
    have h2 := h 2 (by norm_num [maxRetries])
    have h3 := h 3 (by norm_num [maxRetries])
    have h4 := h 4 (by norm_num [maxRetries])
    constructor <;>
      norm_num [retryUpdate, retryStatusUpdate, hr, retryLoop, h0, h1, h2, h3, h4]
  · intro k hk hconf hkerr
    have hk5 : k < 5 := by simpa [maxRetries] using hk
    interval_cases k
    · constructor <;> norm_num [retryUpdate, retryStatusUpdate, hr, retryLoop, hkerr]
    · have c0 := hconf 0 (by norm_num)
      constructor <;>
        norm_num [retryUpdate, retryStatusUpdate, hr, retryLoop, c0, hkerr] <;>
        decide
    · have c0 := hconf 0 (by norm_num)
      have c1 := hconf 1 (by norm_num)
      constructor <;>
        norm_num [retryUpdate, retryStatusUpdate, hr, retryLoop, c0, c1, hkerr] <;>
        decide
    · have c0 := hconf 0 (by norm_num)
      have c1 := hconf 1 (by norm_num)
      have c2 := hconf 2 (by norm_num)
      constructor <;>
        norm_num [retryUpdate, retryStatusUpdate, hr, retryLoop, c0, c1, c2, hkerr] <;>
        decide
    · have c0 := hconf 0 (by norm_num)
      have c1 := hconf 1 (by norm_num)
      have c2 := hconf 2 (by norm_num)
      have c3 := hconf 3 (by norm_num)
      constructor <;>
        norm_num [retryUpdate, retryStatusUpdate, hr, retryLoop, c0, c1, c2, c3,
          hkerr] <;>
        decide

/-- C7 witness: the three scenarios at concrete outcome sequences over
a Nat object with mutation +1. -/
theorem c7_retry_behavior_witness :
    (retryUpdate c7ConflictTwice (fun n => n + 1) 0 = ⟨1, none, 3, [100, 200]⟩ ∧
      retryStatusUpdate c7ConflictTwice (fun n => n + 1) 0 =
        ⟨1, none, 3, [100, 200]⟩) ∧
    (retryUpdate c7AlwaysConflict (fun n => n + 1) 0 =
      ⟨0, some "failed to patch Browser after 5 attempts: version conflict",
        5, [100, 200, 400, 800, 1600]⟩) ∧
    retryUpdate c7OtherAfterOne (fun n => n + 1) 0 =
      ⟨0, some "patch error", 2, [100]⟩ :=
  ⟨(c7_retry_behavior c7ConflictTwice (fun n => n + 1) 0).1
      (by decide) (by decide) (by decide),
    ((c7_retry_behavior c7AlwaysConflict (fun n => n + 1) 0).2.1
      (fun i _ => rfl)).1,
    by
      have h := ((c7_retry_behavior c7OtherAfterOne (fun n => n + 1) 0).2.2
        1 (by norm_num [maxRetries]) (fun j hj => by interval_cases j; rfl)
        (by decide)).1
      simpa using h⟩

theorem processPending_timeout (w : World) (pod : Pod)
    (css : List ContainerStatus)
    (hterm : ∀ cs ∈ css, cs.state.terminated = none)
    (hwait : ∃ cs ∈ css, (cs.state.waiting).isSome = true)
    (hc : (pod.creationTimestamp).isSome = true)
    (hage : podCreationTimeout < w.now - pod.creationTimestamp.getD 0) :
    processPendingStatuses w pod css =
      some (patchBrowser w setFailedTimeout, ⟨none, none⟩) := by
  induction css with
  | nil => simp at hwait
  | cons cs rest ih =>
    have ht0 : cs.state.terminated = none := hterm cs (by simp)
    rw [processPendingStatuses, ht0]
    simp only [Option.isSome_none, Bool.false_eq_true, if_false]
    cases hw : cs.state.waiting with
    | some wst => simp [hc, hage]
    | none =>
      apply ih
      · intro x hx
        exact hterm x (List.mem_cons_of_mem _ hx)
      · rcases hwait with ⟨x, hx, hxs⟩
        rcases List.mem_cons.mp hx with rfl | hx2
        · rw [hw] at hxs; simp at hxs
        · exact ⟨x, hx2, hxs⟩

/-- C9: a Browser in phase Pending whose Pod is Pending, none of whose
containers terminated, with some container waiting under a recognized
still-starting reason (ContainerCreating or PodInitializing), and whose
Pod is older than the 5-minute creation timeout, is reconciled to
status phase Failed with the timeout message, without error. -/
theorem c9_creation_timeout_fails_pending (w : World) (b0 : Browser)
    (pod : Pod) (c : Nat)
    (hb : w.browser = some b0)
    (hdel : b0.deletionTimestamp = none)
    (hphase : b0.status.phase = .pending)
    (hpod : w.pod = some pod)
    (hname : pod.name = b0.name) (hns : pod.ns = b0.ns)
    (hpdel : pod.deletionTimestamp = none)
    (hpph : pod.status.phase = .pending)
    (hterm : ∀ cs ∈ pod.status.containerStatuses, cs.state.terminated = none)
    (hwait : ∃ cs ∈ pod.status.containerStatuses, ∃ wst,
        cs.state.waiting = some wst ∧
        (wst.reason = "ContainerCreating" ∨ wst.reason = "PodInitializing"))
    (hc : pod.creationTimestamp = some c)
    (hage : podCreationTimeout < w.now - c) :
    (reconcile w).2 = ⟨none, none⟩ ∧
    ∃ b1, (reconcile w).1.browser = some b1 ∧
      b1.status.phase = .failed ∧
      b1.status.message = "pod creation timeout exceeded after 5m0s" := by
  have hwait2 : ∃ cs ∈ pod.status.containerStatuses,
      (cs.state.waiting).isSome = true := by
    rcases hwait with ⟨cs, hcs, wst, hw, _⟩
    exact ⟨cs, hcs, by rw [hw]; rfl⟩
  have hphase1 : b0.status.phase ≠ .failed := by rw [hphase]; intro h; cases h
  have hphase2 : b0.status.phase ≠ .unset := by rw [hphase]; intro h; cases h
  have hloop : ∀ w2 : World, w2.pod = w.pod → w2.now = w.now →
      processPendingStatuses w2 pod pod.status.containerStatuses =
        some (patchBrowser w2 setFailedTimeout, ⟨none, none⟩) := by
    intro w2 _ hn
    exact processPending_timeout w2 pod _ hterm hwait2 (by rw [hc]; rfl)
      (by rw [hn, hc]; exact hage)
  by_cases hf : containsFinalizer b0 = true
  · by_cases hl : (b0.labels.lookup "selenosis.io/browser").getD "" ≠ b0.name
    · have hred : reconcile w =
          (patchBrowser (patchBrowser w setIdentityLabels) setFailedTimeout,
            ⟨none, none⟩) := by
        have hl2 := hloop
          { browser := some (setIdentityLabels b0), pod := some pod,
            store := w.store, now := w.now } hpod.symm rfl
        simp [reconcile, hb, hdel, hphase, hphase1, hphase2, hf, hl, getPod,
          patchBrowser, hpod, hname, hns, hpdel, hpph, hl2]
      rw [hred]
      exact ⟨rfl, setFailedTimeout (setIdentityLabels b0),
        by simp [patchBrowser, hb], rfl, rfl⟩
    · have hred : reconcile w = (patchBrowser w setFailedTimeout, ⟨none, none⟩) := by
        have hl2 := hloop w rfl rfl
        simp [reconcile, hb, hdel, hphase, hphase1, hphase2, hf, hl, getPod,
          patchBrowser, hpod, hname, hns, hpdel, hpph, hl2]
      rw [hred]
      exact ⟨rfl, setFailedTimeout b0, by simp [patchBrowser, hb], rfl, rfl⟩
  · by_cases hl : (b0.labels.lookup "selenosis.io/browser").getD "" ≠ b0.name
    · have hred : reconcile w =
          (patchBrowser (patchBrowser (patchBrowser w addFinalizer)
            setIdentityLabels) setFailedTimeout, ⟨none, none⟩) := by
        have hl2 := hloop
          { browser := some (setIdentityLabels (addFinalizer b0)), pod := some pod,
            store := w.store, now := w.now } hpod.symm rfl
        simp [reconcile, hb, hdel, hphase, hphase1, hphase2, hf, hl, getPod,
          patchBrowser, hpod, hname, hns, hpdel, hpph, hl2]
      rw [hred]
      exact ⟨rfl, setFailedTimeout (setIdentityLabels (addFinalizer b0)),
        by simp [patchBrowser, hb], rfl, rfl⟩
    · have hred : reconcile w =
          (patchBrowser (patchBrowser w addFinalizer) setFailedTimeout,
            ⟨none, none⟩) := by
        have hl2 := hloop
          { browser := some (addFinalizer b0), pod := some pod,
            store := w.store, now := w.now } hpod.symm rfl
        simp [reconcile, hb, hdel, hphase, hphase1, hphase2, hf, hl, getPod,
          patchBrowser, hpod, hname, hns, hpdel, hpph, hl2]
      rw [hred]
      exact ⟨rfl, setFailedTimeout (addFinalizer b0),
        by simp [patchBrowser, hb], rfl, rfl⟩

/-- C9 witness: the concrete Pending world just past the creation
timeout is marked Failed with the timeout message. -/
theorem c9_creation_timeout_fails_pending_witness :
    (reconcile c9World).2 = ⟨none, none⟩ ∧
    ∃ b1, (reconcile c9World).1.browser = some b1 ∧
      b1.status.phase = .failed ∧
      b1.status.message = "pod creation timeout exceeded after 5m0s" :=
  c9_creation_timeout_fails_pending c9World c9Browser c9Pod 0
    rfl rfl rfl rfl rfl rfl rfl rfl (by decide)
    ⟨c9ContainerStatus, by decide, ⟨"ContainerCreating", ""⟩, rfl, Or.inl rfl⟩
    rfl (by decide)

theorem reconcile_failed_idle (w : World) (b1 : Browser)
    (hb : w.browser = some b1)
    (hdel : b1.deletionTimestamp = none)
    (hphase : b1.status.phase = .failed) :
    (reconcile w).2 = ⟨none, none⟩ ∧
    (reconcile w).1.pod = w.pod ∧
    ∃ b2, (reconcile w).1.browser = some b2 ∧ b2.status.phase = .failed := by
  by_cases hf : containsFinalizer b1 = true
  · have hred : reconcile w = (patchBrowser w removeFinalizer, ⟨none, none⟩) := by
      simp [reconcile, hb, hdel, hphase, hf]
    rw [hred]
    exact ⟨rfl, rfl, removeFinalizer b1, by simp [patchBrowser, hb],
      by simp [removeFinalizer, hphase]⟩
  · have hred : reconcile w = (w, ⟨none, none⟩) := by
      simp [reconcile, hb, hdel, hphase, hf]
    rw [hred]
    exact ⟨rfl, rfl, b1, hb, hphase⟩

/-- C8: reconciling a Browser whose (browserName, browserVersion) has no
usable store entry (missing or nil) sets status phase Failed with
machine-readable reason "BrowserPodSpec" and a human-readable message,
creates no Pod and returns without error; reconciling again without any
catalog change leaves the Browser Failed, still with no Pod and no
error. -/
theorem c8_missing_config_terminal (w : World) (b0 : Browser)
    (hb : w.browser = some b0)
    (hdel : b0.deletionTimestamp = none)
    (hphase : b0.status.phase ≠ .failed)
    (hpod : w.pod = none)
    (hstore :
      storeGet w.store b0.ns b0.spec.browserName b0.spec.browserVersion = none ∨
      storeGet w.store b0.ns b0.spec.browserName b0.spec.browserVersion
        = some none) :
    (reconcile w).2 = ⟨none, none⟩ ∧
    (reconcile w).1.pod = none ∧
    (∃ b1, (reconcile w).1.browser = some b1 ∧ b1.status.phase = .failed ∧
      b1.status.reason = "BrowserPodSpec" ∧
      b1.status.message = "Browser configuration not found") ∧
    (reconcile (reconcile w).1).2 = ⟨none, none⟩ ∧
    (reconcile (reconcile w).1).1.pod = none ∧
    ∃ b2, (reconcile (reconcile w).1).1.browser = some b2 ∧
      b2.status.phase = .failed := by
  have key : (reconcile w).2 = ⟨none, none⟩ ∧
      (reconcile w).1.pod = none ∧
      ((reconcile w).1.browser.map fun b =>
          (b.status.phase, b.status.reason, b.status.message,
            b.deletionTimestamp))
        = some (Phase.failed, "BrowserPodSpec",
            "Browser configuration not found", none) := by
    rcases hstore with hst | hst <;>
      by_cases hf : containsFinalizer b0 = true <;>
      by_cases hl : (b0.labels.lookup "selenosis.io/browser").getD "" ≠ b0.name <;>
      by_cases hu : b0.status.phase = .unset <;>
      refine ⟨?_, ?_, ?_⟩ <;>
      simp [reconcile, handleMissingPod, hb, hdel, hphase, hf, hl, hu, hst,
        hpod, getPod, patchBrowser, setFailedMissingConfig, addFinalizer,
        setIdentityLabels, setPendingPhase]
  obtain ⟨k1, k2, k3⟩ := key
  cases hbr : (reconcile w).1.browser with
  | none => rw [hbr] at k3; simp at k3
  | some b1 =>
    rw [hbr] at k3
    simp only [Option.map_some', Option.some.injEq, Prod.mk.injEq] at k3
    have hsecond := reconcile_failed_idle (reconcile w).1 b1 hbr k3.2.2.2 k3.1
    refine ⟨k1, k2, ⟨b1, rfl, k3.1, k3.2.1, k3.2.2.1⟩, hsecond.1, ?_,
      hsecond.2.2⟩
    rw [hsecond.2.1, k2]

/-- C8 witness: the concrete fresh Browser with an empty store. -/
theorem c8_missing_config_terminal_witness :
    (reconcile c8World).2 = ⟨none, none⟩ ∧
    (reconcile c8World).1.pod = none ∧
    (∃ b1, (reconcile c8World).1.browser = some b1 ∧
      b1.status.phase = .failed ∧
      b1.status.reason = "BrowserPodSpec" ∧
      b1.status.message = "Browser configuration not found") ∧
    (reconcile (reconcile c8World).1).2 = ⟨none, none⟩ ∧
    (reconcile (reconcile c8World).1).1.pod = none ∧
    ∃ b2, (reconcile (reconcile c8World).1).1.browser = some b2 ∧
      b2.status.phase = .failed :=
  c8_missing_config_terminal c8World c8Browser rfl rfl (by decide) rfl
    (Or.inl rfl)

theorem applyOptions_initContainers (pod : Pod)
    (opts : Option SelenosisOptions) :
    (applySelenosisOptions pod opts).spec.initContainers
      = pod.spec.initContainers := by
  cases opts with
  | none => rfl
  | some o =>
    by_cases h : o.containers.length > 0 <;> simp [applySelenosisOptions, h]

theorem applyOptions_containers_workingDir (pod : Pod)
    (opts : Option SelenosisOptions) :
    ((applySelenosisOptions pod opts).spec.containers).map
        (fun c => c.workingDir)
      = (pod.spec.containers).map fun c => c.workingDir := by
  cases opts with
  | none => rfl
  | some o =>
    by_cases h : o.containers.length > 0
    · simp only [applySelenosisOptions, h, if_pos]
      simp only [List.map_map]
      congr 1
      funext c
      rcases hlk : o.containers.lookup c.name with _ | copt
      · simp [hlk]
      · by_cases he : copt.env = [] <;> simp [hlk, he]
    · simp [applySelenosisOptions, h]

/-- C6 (amended): in the built pod, every init container's working
directory is the resolved spec's top-level working directory whenever
that is set (its own value applies only when the top-level one is
unset), while sidecar containers always receive exactly their own
working directory (empty when unset) and never inherit the top-level
one. -/
theorem c6_workingDir_amended (b : Browser) (cfg : BrowserVersionConfigSpec)
    (opts : Option SelenosisOptions) :
    ((buildBrowserPod b cfg opts).spec.initContainers).map
        (fun c => c.workingDir)
      = (cfg.initContainers.getD []).map (fun ic =>
          match cfg.workingDir with
          | some w => w
          | none => ic.workingDir.getD "") ∧
    ((buildBrowserPod b cfg opts).spec.containers).map (fun c => c.workingDir)
      = cfg.workingDir.getD "" ::
          (cfg.sidecars.getD []).map fun s => s.workingDir.getD "" := by
  constructor
  · simp only [buildBrowserPod, applyOptions_initContainers, List.map_map]
    rfl
  · simp only [buildBrowserPod, applyOptions_containers_workingDir]
    by_cases hp : cfg.privileged.getD false = true
    all_goals simp only [hp, if_true, Bool.false_eq_true, if_false,
      List.map_cons, List.map_map]
    all_goals rfl

/-- C10: the store's event handlers are total at their interface:
a non-BrowserConfig argument, a DeletedFinalStateUnknown tombstone with
a nil inner object, and a tombstone with a foreign inner object all
leave the store map unchanged, for both onAddOrUpdate and onDelete. -/
theorem c10_handlers_ignore_foreign_objects (s : Store) (d : String) :
    onAddOrUpdate (.otherObj d) s = s ∧
    onDelete (.otherObj d) s = s ∧
    onAddOrUpdate (.deletedFinalStateUnknown none) s = s ∧
    onDelete (.deletedFinalStateUnknown none) s = s ∧
    onAddOrUpdate (.deletedFinalStateUnknown (some (.innerOther d))) s = s ∧
    onDelete (.deletedFinalStateUnknown (some (.innerOther d))) s = s :=
  ⟨rfl, rfl, rfl, rfl, rfl, rfl⟩

end BrowserController
